import Mathlib

/-!
# Shallow embedding of the `usecart` Python SDK (Cart API client)

This file embeds the request-building / response-parsing layer of the
`usecart` Python package (`src/usecart/_http.py`, `_errors.py`, `_types.py`,
`_resources.py`, `_client.py`) and proves the spec's claims about it.

Modelling conventions:
* JSON values are the inductive `Json` below; `dict.get(k, d)` is association
  list lookup with a default; Python truthiness is `Json.truthy`.
* Python `int(s)` is `parsePyInt` (returns `none` where CPython raises
  `ValueError`): optional surrounding whitespace, optional sign, decimal
  digits with single underscores allowed between digits.
* `urllib.parse.quote(s, safe=...)` is `pyQuote`: UTF-8 encode, keep bytes in
  the always-safe set (ASCII letters, digits, `_ . - ~`) or in `safe`,
  percent-encode the rest with uppercase hex.  `quote(key)` uses the default
  `safe='/'`; `quote(v, safe='')` encodes everything outside the always-safe
  set.
* Exceptions are `Except`: `PyError` distinguishes the construction-time
  `ValueError` ("An API key is required...") from `int()`'s `ValueError`
  ("invalid literal for int()..."), `json.JSONDecodeError` and
  `AttributeError` — distinct exception values in Python, distinct
  constructors here.
* The mutable field `HttpClient.rate_limit` is threaded explicitly: methods
  that mutate it return the updated client.
-/

/-- A JSON value, as produced by `json.loads`.  Numbers are restricted to
integers: no claim involves non-integer numerics, and every numeric literal
the code manufactures itself is an `int`. -/
inductive Json where
  | null : Json
  | bool : Bool → Json
  | num : Int → Json
  | str : String → Json
  | arr : List Json → Json
  | obj : List (String × Json) → Json

/-- Python truthiness of a JSON value (`if error:`, `if retry_after_header`). -/
def Json.truthy : Json → Bool
  | .null => false
  | .bool b => b
  | .num n => n != 0
  | .str s => s ≠ ""
  | .arr xs => ¬ xs.isEmpty
  | .obj fs => ¬ fs.isEmpty

/-- `d.get(key, dflt)` on a JSON object's field list: value of the first
binding of `key`, else the default. -/
def jget (fs : List (String × Json)) (key : String) (dflt : Json) : Json :=
  match fs.lookup key with
  | some v => v
  | none => dflt

/-- Python whitespace accepted by `int(str)` (ASCII subset). -/
def isPySpace (c : Char) : Bool :=
  c = ' ' ∨ c = '\t' ∨ c = '\n' ∨ c = '\x0d' ∨ c = '\x0b' ∨ c = '\x0c'

/-- Digit run of `int(str)`: decimal digits, single underscores allowed
between digits (`int("1_0") = 10`), accumulating into `acc`. -/
def pyDigits : Nat → List Char → Option Nat
  | acc, [] => some acc
  | acc, '_' :: c :: rest =>
      if c.isDigit then pyDigits (acc * 10 + (c.toNat - 48)) rest else none
  | _, ['_'] => none
  | acc, c :: rest =>
      if c.isDigit then pyDigits (acc * 10 + (c.toNat - 48)) rest else none

/-- Python `int(s)` for `str` input: `some n` where CPython returns `n`,
`none` where it raises `ValueError`. -/
def parsePyInt (s : String) : Option Int :=
  let cs := ((s.toList.dropWhile isPySpace).reverse.dropWhile isPySpace).reverse
  match cs with
  | [] => none
  | '-' :: rest =>
      match rest with
      | [] => none
      | c :: _ =>
        if c.isDigit then (pyDigits 0 rest).map (fun n => -(n : Int)) else none
  | '+' :: rest =>
      match rest with
      | [] => none
      | c :: _ =>
        if c.isDigit then (pyDigits 0 rest).map (fun n => (n : Int)) else none
  | c :: rest =>
      if c.isDigit then (pyDigits 0 (c :: rest)).map (fun n => (n : Int)) else none

/-- UTF-8 bytes of one code point. -/
def utf8Char (n : Nat) : List Nat :=
  if n < 0x80 then [n]
  else if n < 0x800 then [0xC0 + n / 64, 0x80 + n % 64]
  else if n < 0x10000 then [0xE0 + n / 4096, 0x80 + (n / 64) % 64, 0x80 + n % 64]
  else [0xF0 + n / 262144, 0x80 + (n / 4096) % 64, 0x80 + (n / 64) % 64, 0x80 + n % 64]

/-- UTF-8 encoding of a string, as a byte list (`s.encode('utf-8')`). -/
def utf8Bytes (s : String) : List Nat :=
  (s.toList.map (fun c => utf8Char c.toNat)).flatten

/-- `urllib.parse`'s `_ALWAYS_SAFE` bytes: ASCII letters, digits, `_.-~`. -/
def isAlwaysSafeByte (b : Nat) : Bool :=
  (65 ≤ b ∧ b ≤ 90) ∨ (97 ≤ b ∧ b ≤ 122) ∨ (48 ≤ b ∧ b ≤ 57) ∨
    b = 45 ∨ b = 46 ∨ b = 95 ∨ b = 126

/-- Uppercase hexadecimal digit for `n < 16`. -/
def hexUpper (n : Nat) : Char :=
  if n < 10 then Char.ofNat (48 + n) else Char.ofNat (55 + n)

/-- Percent-encoding of one byte, uppercase hex (`%XY`). -/
def pctByte (b : Nat) : List Char :=
  ['%', hexUpper (b / 16), hexUpper (b % 16)]

/-- `urllib.parse.quote(s, safe=<safe>)` with `safe` given as code points:
UTF-8 encode, keep always-safe and `safe` bytes, percent-encode the rest. -/
def pyQuote (safe : List Nat) (s : String) : String :=
  String.mk (((utf8Bytes s).map (fun b =>
    if isAlwaysSafeByte b ∨ safe.contains b then [Char.ofNat b] else pctByte b)).flatten)

/-- `urllib.parse.quote(key)` — the default `safe='/'` (byte 47). -/
def quoteDefault (s : String) : String := pyQuote [47] s

/-- `urllib.parse.quote(v, safe='')` — nothing extra is safe. -/
def quoteAll (s : String) : String := pyQuote [] s

/-! ## Data model (`_types.py`)

Python dataclass field annotations are not enforced at runtime: `_parse_response`
passes whatever JSON value sits in the body straight into the dataclass.  The
envelope fields are therefore `Json`-typed here; `RateLimitInfo` alone is
genuinely `int`-typed, being built from `int(...)`. -/

/-- `ApiResponseMeta` — metadata about the API response. -/
structure ApiResponseMeta where
  request_id : Json
  timestamp : Json
  page : Json
  total_pages : Json
  total_results : Json

/-- `ApiResponseUsage` — API usage information. -/
structure ApiResponseUsage where
  requests_today : Json
  limit : Json

/-- `ApiResponse` — wrapper for all API responses. -/
structure ApiResponse where
  data : Json
  meta : ApiResponseMeta
  usage : ApiResponseUsage

/-- `RateLimitInfo` — rate limit information from response headers. -/
structure RateLimitInfo where
  remaining : Int
  limit : Int

/-! ## Error hierarchy (`_errors.py`)

`CartApiError(message, status, code, request_id)`; `CartAuthError(message,
request_id)` calls `super().__init__(message, 401, "auth_error", request_id)`;
`CartRateLimitError(message, request_id, retry_after, rate_limit,
rate_limit_remaining)` calls `super().__init__(message, 429,
"rate_limit_exceeded", request_id)`.  `message`/`code`/`request_id` come from
an unvalidated JSON body, so they are `Json`-typed; a missing `request_id`
is Python `None` = `Json.null`. -/

/-- The typed Cart error hierarchy as a closed sum. -/
inductive CartError where
  | api : (message : Json) → (status : Nat) → (code : Json) → (request_id : Json) → CartError
  | auth : (message : Json) → (request_id : Json) → CartError
  | rateLimit : (message : Json) → (request_id : Json) → (retry_after : Option Int) →
      (rate_limit : Option Int) → (rate_limit_remaining : Option Int) → CartError

/-- The `status` attribute: fixed at 401 / 429 by the subclass constructors. -/
def CartError.status : CartError → Nat
  | .api _ s _ _ => s
  | .auth _ _ => 401
  | .rateLimit _ _ _ _ _ => 429

/-- The `code` attribute: fixed at `"auth_error"` / `"rate_limit_exceeded"`
by the subclass constructors. -/
def CartError.code : CartError → Json
  | .api _ _ c _ => c
  | .auth _ _ => .str "auth_error"
  | .rateLimit _ _ _ _ _ => .str "rate_limit_exceeded"

/-- The `message` attribute. -/
def CartError.message : CartError → Json
  | .api m _ _ _ => m
  | .auth m _ => m
  | .rateLimit m _ _ _ _ => m

/-- The `request_id` attribute. -/
def CartError.request_id : CartError → Json
  | .api _ _ _ r => r
  | .auth _ r => r
  | .rateLimit _ r _ _ _ => r

/-- Exceptions the library can raise, beyond returning normally.  Python uses
`ValueError` both for the construction-time API-key check (message "An API key
is required. ...") and inside `int()` ("invalid literal for int() ..."): they
are distinct exception values, kept apart here by provenance. -/
inductive PyError where
  | config : PyError
  | cart : CartError → PyError
  | intParse : PyError
  | jsonDecode : PyError
  | attrError : PyError

/-! ## HTTP transport (`_http.py`) -/

/-- Response headers as a lookup (`resp.headers.get(name)`). -/
def Headers : Type := String → Option String

/-- The underlying `urllib` outcome of one request: a 2xx response (with
headers and the `json.loads` of its body — `none` when the body is not valid
JSON, where `json.loads` raises), or an `HTTPError` carrying a status, headers
and the `json.loads` of its body (same convention). -/
inductive HttpResult where
  | success : Headers → Option Json → HttpResult
  | httpError : (status : Nat) → Headers → Option Json → HttpResult

/-- Headers of either outcome. -/
def HttpResult.headers : HttpResult → Headers
  | .success h _ => h
  | .httpError _ h _ => h

/-- `HttpClient.__init__` state: `self._api_key`, `self._base_url` (trailing
slashes stripped), `self.rate_limit` (initially `None`). -/
structure HttpClient where
  api_key : String
  base_url : String
  rate_limit : Option RateLimitInfo

/-- Python `base_url.rstrip("/")`. -/
def rstripSlash (s : String) : String :=
  String.mk ((s.toList.reverse.dropWhile (fun c => c = '/')).reverse)

/-- A query-parameter value as a resource method can supply it:
`scalar | list<scalar> | bool | null` (floats never reach a claim). -/
inductive ParamValue where
  | null : ParamValue
  | bool : Bool → ParamValue
  | str : String → ParamValue
  | int : Int → ParamValue
  | list : List String → ParamValue

/-- Is this param value Python `None`? -/
def ParamValue.isNull : ParamValue → Bool
  | .null => true
  | _ => false

/-- One iteration of `_build_url`'s `for key, value in params.items()` loop:
`None` contributes nothing (`continue`); a `bool` (checked first, as
`isinstance(value, bool)` is) contributes `quote(key)=str(value).lower()`;
a list contributes `quote(key)=` followed by the comma-join of
`quote(str(v), safe="")`; anything else contributes
`quote(key)=quote(str(value), safe="")`. -/
def serializeParam (kv : String × ParamValue) : Option String :=
  match kv.2 with
  | .null => none
  | .bool b => some (quoteDefault kv.1 ++ "=" ++ (if b then "true" else "false"))
  | .list xs =>
      some (quoteDefault kv.1 ++ "=" ++ String.intercalate "," (xs.map (fun v => quoteAll v)))
  | .str s => some (quoteDefault kv.1 ++ "=" ++ quoteAll s)
  | .int n => some (quoteDefault kv.1 ++ "=" ++ quoteAll (toString n))

/-- `HttpClient._build_url(path, params)`: concatenate base and path; skip
`None` values; booleans as `str(value).lower()`; lists comma-joined from
`quote(str(v), safe="")`; everything else `quote(str(value), safe="")`; keys
`quote(key)`; join with `&` behind `?` when any part was produced.  `params`
itself may be `None` or empty (`if not params`). -/
def HttpClient.build_url (c : HttpClient) (path : String)
    (params : Option (List (String × ParamValue))) : String :=
  let url := c.base_url ++ path
  match params with
  | none => url
  | some ps =>
    if ps.isEmpty then url
    else
      let parts := ps.filterMap serializeParam
      if parts.isEmpty then url else url ++ "?" ++ String.intercalate "&" parts

/-- `HttpClient._parse_rate_limit_headers(resp)`: read both headers; only when
both are present build `RateLimitInfo(int(remaining), int(limit))` and assign
it; `int()` raises `ValueError` on an unparseable string, in which case no
assignment happens.  Returns the (possibly updated) cache. -/
def parse_rate_limit_headers (headers : Headers) (cache : Option RateLimitInfo) :
    Except PyError (Option RateLimitInfo) :=
  let remaining := headers "X-RateLimit-Remaining"
  let limit := headers "X-RateLimit-Limit"
  match remaining, limit with
  | some r, some l =>
      match parsePyInt r with
      | none => .error .intParse
      | some ri =>
          match parsePyInt l with
          | none => .error .intParse
          | some li => .ok (some ⟨ri, li⟩)
  | _, _ => .ok cache

/-- The error-body resolution in `HttpClient._handle_error_response`: defaults
`code="unknown_error"`, `message=f"Cart API error: {status}"`,
`request_id=None`; then try to read `body["error"]`'s `code`/`message`/
`request_id` — a `json.JSONDecodeError` (body = `none` here) or an
`AttributeError` (`.get` on a non-dict) is swallowed, keeping the defaults;
a missing or falsy `error` object also keeps them.  Returns
`(code, message, request_id)`. -/
def resolveErrorFields (status : Nat) (body : Option Json) : Json × Json × Json :=
  let code0 := Json.str "unknown_error"
  let msg0 := Json.str ("Cart API error: " ++ toString status)
  match body with
  | none => (code0, msg0, .null)
  | some b =>
    match b with
    | .obj fs =>
      let error := jget fs "error" (.obj [])
      if error.truthy then
        match error with
        | .obj efs =>
            (jget efs "code" code0, jget efs "message" msg0, jget efs "request_id" .null)
        | _ => (code0, msg0, .null)
      else (code0, msg0, .null)
    | _ => (code0, msg0, .null)

/-- `HttpClient._handle_error_response(exc)`: resolve code/message/request_id
from the body, then dispatch on the status.  401 raises `CartAuthError`;
429 reads `Retry-After` (`int(h) if retry_after_header else None` — a present,
non-empty, unparseable header makes `int()` raise `ValueError`) and raises
`CartRateLimitError` with limits copied off `self.rate_limit` when that is
set; anything else raises `CartApiError`.  The raised error is the normal
result; `.error` is an escaped non-Cart exception. -/
def HttpClient.handle_error_response (c : HttpClient) (status : Nat)
    (body : Option Json) (headers : Headers) : Except PyError CartError :=
  let resolved := resolveErrorFields status body
  let code := resolved.1
  let message := resolved.2.1
  let request_id := resolved.2.2
  if status = 401 then .ok (.auth message request_id)
  else if status = 429 then
    let retry_after_header := headers "Retry-After"
    match retry_after_header with
    | some h =>
        if h ≠ "" then
          match parsePyInt h with
          | some n =>
              .ok (.rateLimit message request_id (some n)
                (c.rate_limit.map (fun rl => rl.limit))
                (c.rate_limit.map (fun rl => rl.remaining)))
          | none => .error .intParse
        else
          .ok (.rateLimit message request_id none
            (c.rate_limit.map (fun rl => rl.limit))
            (c.rate_limit.map (fun rl => rl.remaining)))
    | none =>
        .ok (.rateLimit message request_id none
          (c.rate_limit.map (fun rl => rl.limit))
          (c.rate_limit.map (fun rl => rl.remaining)))
  else .ok (.api message status code request_id)

/-- `HttpClient._parse_response(body)`: `body.get("meta", {})` then field
extraction with defaults, same for `usage`, `data` defaulting to `None`.
`.get` on a non-dict raises `AttributeError` (uncaught here). -/
def parse_response (body : Json) : Except PyError ApiResponse :=
  match body with
  | .obj fs =>
    match jget fs "meta" (.obj []) with
    | .obj ms =>
      let meta : ApiResponseMeta :=
        ⟨jget ms "request_id" (.str ""), jget ms "timestamp" (.str ""),
         jget ms "page" (.num 0), jget ms "total_pages" (.num 0),
         jget ms "total_results" (.num 0)⟩
      match jget fs "usage" (.obj []) with
      | .obj us =>
          .ok ⟨jget fs "data" .null, meta, ⟨jget us "requests_today" (.num 0), jget us "limit" (.num 0)⟩⟩
      | _ => .error .attrError
    | _ => .error .attrError
  | _ => .error .attrError

/-- `HttpClient.get(path, params)` given the wire outcome `resp`: build the
URL (its value does not influence the rest), parse rate-limit headers (on the
success object or the `HTTPError`), then parse the body or map the error.
Returns the outcome paired with the client state after its mutations. -/
def HttpClient.get (c : HttpClient) (path : String)
    (params : Option (List (String × ParamValue))) (resp : HttpResult) :
    Except PyError ApiResponse × HttpClient :=
  match resp with
  | .success headers body =>
    match parse_rate_limit_headers headers c.rate_limit with
    | .error e => (.error e, c)
    | .ok cache =>
      let c' := { c with rate_limit := cache }
      match body with
      | none => (.error .jsonDecode, c')
      | some b => (parse_response b, c')
  | .httpError status headers body =>
    match parse_rate_limit_headers headers c.rate_limit with
    | .error e => (.error e, c)
    | .ok cache =>
      let c' := { c with rate_limit := cache }
      match c'.handle_error_response status body headers with
      | .ok cartErr => (.error (.cart cartErr), c')
      | .error e => (.error e, c')

/-! ## Resource wrappers (`_resources.py`)

Each method builds a path and a params dict and delegates to
`self._http.get(path, params)`.  We embed the request-shape translation:
the `(path, params)` pair handed to the transport, and the URL the transport
then builds from it. -/

/-- `_encode(segment)` = `quote(segment, safe="")`. -/
def pathEncode (segment : String) : String := quoteAll segment

/-- Lift an optional Python `str` argument into a param value (`None` ↦ null). -/
def optStr : Option String → ParamValue
  | none => .null
  | some s => .str s

/-- Lift an optional Python `int` argument into a param value. -/
def optInt : Option Int → ParamValue
  | none => .null
  | some n => .int n

/-- Lift an optional Python `bool` argument into a param value. -/
def optBool : Option Bool → ParamValue
  | none => .null
  | some b => .bool b

/-- Keyword arguments of `StoresResource.search` (all default to `None`). -/
structure StoresSearchArgs where
  keyword : Option String := none
  page : Option Int := none
  per_page : Option Int := none
  sort : Option String := none
  platform : Option String := none
  language : Option String := none
  currency : Option String := none
  biz_model : Option String := none
  has_ads : Option Bool := none
  status : Option String := none
  min_traffic : Option Int := none

namespace StoresResource

/-- The params dict `StoresResource.search` builds, in insertion order. -/
def searchParams (a : StoresSearchArgs) : List (String × ParamValue) :=
  [("keyword", optStr a.keyword), ("page", optInt a.page),
   ("per_page", optInt a.per_page), ("sort", optStr a.sort),
   ("platform", optStr a.platform), ("language", optStr a.language),
   ("currency", optStr a.currency), ("biz_model", optStr a.biz_model),
   ("has_ads", optBool a.has_ads), ("status", optStr a.status),
   ("min_traffic", optInt a.min_traffic)]

/-- The URL `stores.search` makes the transport build:
`self._http.get("/stores", params)`. -/
def searchUrl (c : HttpClient) (a : StoresSearchArgs) : String :=
  c.build_url "/stores" (some (searchParams a))

/-- `stores.get(domain)`: `self._http.get(f"/stores/{_encode(domain)}")`. -/
def getUrl (c : HttpClient) (domain : String) : String :=
  c.build_url ("/stores/" ++ pathEncode domain) none

/-- `stores.compare(domains)`:
`self._http.get("/stores/compare", {"domains": domains})`. -/
def compareUrl (c : HttpClient) (domains : List String) : String :=
  c.build_url "/stores/compare" (some [("domains", ParamValue.list domains)])

end StoresResource

namespace NichesResource

/-- `niches.get(keyword)`: `self._http.get(f"/niches/{_encode(keyword)}")`. -/
def getUrl (c : HttpClient) (keyword : String) : String :=
  c.build_url ("/niches/" ++ pathEncode keyword) none

end NichesResource

namespace ProductsResource

/-- `products.get(id)`: `self._http.get(f"/products/{_encode(id)}")`. -/
def getUrl (c : HttpClient) (id : String) : String :=
  c.build_url ("/products/" ++ pathEncode id) none

end ProductsResource

namespace AdsResource

/-- `ads.get(id)`: `self._http.get(f"/ads/{_encode(id)}")`. -/
def getUrl (c : HttpClient) (id : String) : String :=
  c.build_url ("/ads/" ++ pathEncode id) none

end AdsResource

/-! ## Facade (`_client.py`) -/

/-- `_DEFAULT_BASE_URL`. -/
def DEFAULT_BASE_URL : String := "https://api.usecart.com/v1"

/-- `Cart.__init__(api_key, *, base_url=_DEFAULT_BASE_URL)`: `if not api_key:
raise ValueError("An API key is required. ...")` — for a `str`, falsy means
empty — then `self._http = HttpClient(api_key, base_url)`.  No network
involved: the result is just the configured transport state. -/
def Cart.mk (api_key : String) (base_url : String := DEFAULT_BASE_URL) :
    Except PyError HttpClient :=
  if api_key = "" then .error .config
  else .ok ⟨api_key, rstripSlash base_url, none⟩

/-! ## Character-level facts about `urllib.parse.quote` -/

/-- RFC 3986 reserved characters (gen-delims and sub-delims). -/
def reservedChars : List Char :=
  [':', '/', '?', '#', '[', ']', '@', '!', '$', '&', '\'', '(', ')', '*', '+', ',', ';', '=']

theorem char_toNat_lt (c : Char) : c.toNat < 1114112 := by
  have h := c.valid
  unfold Char.toNat
  rcases h with h | h <;> omega

theorem utf8Char_bytes_lt {n : Nat} (h : n < 1114112) : ∀ b ∈ utf8Char n, b < 256 := by
  intro b hb
  unfold utf8Char at hb
  by_cases h1 : n < 0x80
  · simp [h1] at hb; omega
  · by_cases h2 : n < 0x800
    · simp [h1, h2] at hb
      rcases hb with hb | hb <;> omega
    · by_cases h3 : n < 0x10000
      · simp [h1, h2, h3] at hb
        rcases hb with hb | hb | hb <;> omega
      · simp [h1, h2, h3] at hb
        rcases hb with hb | hb | hb | hb <;> omega

theorem utf8Bytes_lt (s : String) : ∀ b ∈ utf8Bytes s, b < 256 := by
  intro b hb
  unfold utf8Bytes at hb
  simp only [List.mem_flatten, List.mem_map] at hb
  obtain ⟨l, ⟨c, _, rfl⟩, hbl⟩ := hb
  exact utf8Char_bytes_lt (char_toNat_lt c) b hbl

/-- Every character `pyQuote` emits is a kept safe byte, a `%`, or an
uppercase hex digit. -/
theorem pyQuote_chars (safe : List Nat) (s : String) :
    ∀ ch ∈ (pyQuote safe s).data,
      (∃ b, b < 256 ∧ (isAlwaysSafeByte b ∨ safe.contains b) ∧ ch = Char.ofNat b) ∨
        ch = '%' ∨ (∃ n, n < 16 ∧ ch = hexUpper n) := by
  intro ch hch
  unfold pyQuote at hch
  simp only [String.data, List.mem_flatten, List.mem_map] at hch
  obtain ⟨l, ⟨b, hb, rfl⟩, hchl⟩ := hch
  have hb256 := utf8Bytes_lt s b hb
  by_cases hsafe : isAlwaysSafeByte b ∨ safe.contains b = true
  · simp only [hsafe, if_true, List.mem_singleton] at hchl
    exact Or.inl ⟨b, hb256, hsafe, hchl⟩
  · simp only [hsafe, if_false, pctByte, List.mem_cons, List.not_mem_nil, or_false] at hchl
    rcases hchl with h | h | h
    · exact Or.inr (Or.inl h)
    · exact Or.inr (Or.inr ⟨b / 16, by omega, h⟩)
    · exact Or.inr (Or.inr ⟨b % 16, by omega, h⟩)

set_option maxRecDepth 4096 in
theorem alwaysSafe_not_reserved :
    ∀ b < 256, isAlwaysSafeByte b → Char.ofNat b ∉ reservedChars := by decide

theorem hexUpper_not_reserved : ∀ n < 16, hexUpper n ∉ reservedChars := by decide

theorem pct_not_reserved : ('%' : Char) ∉ reservedChars := by decide

/-- `quote(s, safe='')` emits no RFC 3986 reserved character at all. -/
theorem quoteAll_not_reserved (s : String) :
    ∀ ch ∈ (quoteAll s).data, ch ∉ reservedChars := by
  intro ch hch hres
  rcases pyQuote_chars [] s ch hch with ⟨b, hb, hsafe, rfl⟩ | rfl | ⟨n, hn, rfl⟩
  · rcases hsafe with hsafe | hsafe
    · exact alwaysSafe_not_reserved b hb hsafe hres
    · simp at hsafe
  · exact pct_not_reserved hres
  · exact hexUpper_not_reserved n hn hres

/-- `quote(k)` (default `safe='/'`) emits no reserved character other than
the slash it deliberately keeps. -/
theorem quoteDefault_reserved_only_slash (k : String) :
    ∀ ch ∈ (quoteDefault k).data, ch ∈ reservedChars → ch = '/' := by
  intro ch hch hres
  rcases pyQuote_chars [47] k ch hch with ⟨b, hb, hsafe, rfl⟩ | rfl | ⟨n, hn, rfl⟩
  · rcases hsafe with hsafe | hsafe
    · exact absurd hres (alwaysSafe_not_reserved b hb hsafe)
    · simp at hsafe
      subst hsafe
      rfl
  · exact absurd hres pct_not_reserved
  · exact absurd hres (hexUpper_not_reserved n hn)

/-- **C10**: every string a resource method uses as a path segment (a store
domain, product id, ad id, or niche keyword) goes through
`_encode = quote(·, safe="")`, whose output contains no reserved URL
character at all — in particular no `/`, `?`, `#`, or `&` — so no input can
retarget the endpoint path or inject query parameters; and the resource
methods place exactly that encoded segment in the path. -/
theorem pathEncode_no_reserved_chars :
    (∀ s : String, ∀ ch ∈ (pathEncode s).data, ch ∉ reservedChars) ∧
    (∀ (c : HttpClient) (domain : String),
        StoresResource.getUrl c domain = c.base_url ++ ("/stores/" ++ pathEncode domain)) ∧
    (∀ (c : HttpClient) (keyword : String),
        NichesResource.getUrl c keyword = c.base_url ++ ("/niches/" ++ pathEncode keyword)) ∧
    (∀ (c : HttpClient) (id : String),
        ProductsResource.getUrl c id = c.base_url ++ ("/products/" ++ pathEncode id)) ∧
    (∀ (c : HttpClient) (id : String),
        AdsResource.getUrl c id = c.base_url ++ ("/ads/" ++ pathEncode id)) := by
  refine ⟨fun s => quoteAll_not_reserved s, fun c d => rfl, fun c k => rfl,
    fun c i => rfl, fun c i => rfl⟩

/-- **C10 witness**: the dangerous segment `a/b?c#d&e` is encoded as
`a%2Fb%3Fc%23d%26e`; its characters (here `%`) are not reserved, and
`stores.get` on it targets the encoded path. -/
theorem pathEncode_no_reserved_chars_witness :
    ('%' ∈ (pathEncode "a/b?c#d&e").data ∧ '%' ∉ reservedChars) ∧
    (pathEncode "a/b?c#d&e" = "a%2Fb%3Fc%23d%26e" ∧
      StoresResource.getUrl ⟨"k", "https://api.usecart.com/v1", none⟩ "a/b?c#d&e" =
        "https://api.usecart.com/v1" ++ ("/stores/" ++ pathEncode "a/b?c#d&e")) :=
  ⟨⟨by decide, pathEncode_no_reserved_chars.1 "a/b?c#d&e" '%' (by decide)⟩,
    by decide, pathEncode_no_reserved_chars.2.1 ⟨"k", "https://api.usecart.com/v1", none⟩ "a/b?c#d&e"⟩

/-- **C6 counterexample**: the claim says query-string *keys* are
percent-encoded with reserved characters encoded, but `_build_url` quotes
keys with `urllib.parse.quote`'s default `safe='/'`: the key `a/b` passes
through with its reserved `/` intact (a fully-encoded key would be
`a%2Fb`). -/
theorem query_key_slash_counterexample :
    HttpClient.build_url ⟨"k", "https://api.usecart.com/v1", none⟩ "/p"
        (some [("a/b", ParamValue.str "v")]) = "https://api.usecart.com/v1/p?a/b=v" ∧
    quoteDefault "a/b" = "a/b" ∧
    '/' ∈ (quoteDefault "a/b").data ∧ '/' ∈ reservedChars :=
  ⟨rfl, rfl, by decide, by decide⟩

/-- **C6 (amended)**: query-string *values* are percent-encoded individually
with every reserved character encoded (so a comma in a scalar value becomes
`%2C`, and the comma appears only as the internal separator of a joined list
value, whose elements are themselves comma-free); *keys* are percent-encoded
with every reserved character except `/` encoded (`quote`'s default
`safe='/'` leaves a slash in a key literal); `stores.compare(domains)` sends
the single parameter `domains` with the comma-joined per-element-encoded
value, and `stores.compare(["a.com","b.com"])` yields
`domains=a.com,b.com`. -/
theorem query_encoding_reserved : 
    (∀ s : String, ∀ ch ∈ (quoteAll s).data, ch ∉ reservedChars) ∧
    (∀ k : String, ∀ ch ∈ (quoteDefault k).data, ch ∈ reservedChars → ch = '/') ∧
    (∀ (c : HttpClient) (domains : List String),
        StoresResource.compareUrl c domains =
          c.base_url ++ "/stores/compare" ++ "?" ++
            ("domains" ++ "=" ++ String.intercalate "," (domains.map quoteAll)) ∧
          ∀ d ∈ domains, ',' ∉ (quoteAll d).data) ∧
    (∀ c : HttpClient, StoresResource.compareUrl c ["a.com", "b.com"] =
        c.base_url ++ "/stores/compare" ++ "?" ++ "domains=a.com,b.com") := by
  refine ⟨quoteAll_not_reserved, quoteDefault_reserved_only_slash, fun c domains => ⟨?_, ?_⟩, fun c => ?_⟩
  · rfl
  · intro d _ hc
    exact quoteAll_not_reserved d ',' hc (by decide)
  · rfl

/-- **C6 witness**: concrete instances — `quote("a,b", safe='')` contains
`%` (from `%2C`) and `%` is not reserved; a `/` surviving in an encoded key
is the sole reserved character a key may keep; the compare scenario at a
concrete client. -/
theorem query_encoding_reserved_witness :
    ('%' ∈ (quoteAll "a,b").data ∧ '%' ∉ reservedChars) ∧
    ('/' ∈ (quoteDefault "a/b").data ∧ '/' ∈ reservedChars ∧ ('/' : Char) = '/') ∧
    StoresResource.compareUrl ⟨"k", "https://api.usecart.com/v1", none⟩ ["a.com", "b.com"] =
      "https://api.usecart.com/v1" ++ "/stores/compare" ++ "?" ++ "domains=a.com,b.com" :=
  ⟨⟨by decide, query_encoding_reserved.1 "a,b" '%' (by decide)⟩,
    ⟨by decide, by decide,
      query_encoding_reserved.2.1 "a/b" '/' (by decide) (by decide)⟩,
    (query_encoding_reserved.2.2.2 ⟨"k", "https://api.usecart.com/v1", none⟩)⟩

/-! ## Query-string serialization (claims about `_build_url`) -/

/-- The `if not params` / `if parts` guards collapse: `_build_url` is the
base-plus-path, with `?`-joined parts appended whenever any were produced. -/
theorem build_url_parts (c : HttpClient) (path : String) (ps : List (String × ParamValue)) :
    HttpClient.build_url c path (some ps) =
      (if (ps.filterMap serializeParam).isEmpty then c.base_url ++ path
       else c.base_url ++ path ++ "?" ++ String.intercalate "&" (ps.filterMap serializeParam)) := by
  rcases ps with _ | ⟨kv, t⟩
  · rfl
  · rfl

/-- Entries whose value is `None` contribute nothing to the query parts. -/
theorem filterMap_serializeParam_filter_null (ps : List (String × ParamValue)) :
    (ps.filter (fun kv => !kv.2.isNull)).filterMap serializeParam =
      ps.filterMap serializeParam := by
  induction ps with
  | nil => rfl
  | cons kv t ih =>
    obtain ⟨k, v⟩ := kv
    cases v <;> first
      | exact ih
      | exact congrArg (List.cons _) ih

/-- **C1**: for every params mapping handed to `_build_url`, null-valued
entries are omitted (dropping them changes nothing); booleans serialize as
lowercase `true`/`false`; lists as one comma-joined parameter of
individually percent-encoded elements; every other value percent-encoded in
its string form — with the query preserving the mapping's insertion order
(the parts list follows the entry list); and
`stores.search(keyword="fitness", has_ads=True)` yields exactly the query
string `keyword=fitness&has_ads=true`, every other parameter omitted. -/
theorem build_url_serialization (c : HttpClient) (path : String)
    (ps : List (String × ParamValue)) :
    (HttpClient.build_url c path (some ps) =
      HttpClient.build_url c path (some (ps.filter (fun kv => !kv.2.isNull)))) ∧
    (HttpClient.build_url c path (some ps) =
      (let parts := ps.filterMap (fun kv =>
          match kv.2 with
          | .null => none
          | .bool b => some (quoteDefault kv.1 ++ "=" ++ (if b then "true" else "false"))
          | .list xs =>
              some (quoteDefault kv.1 ++ "=" ++ String.intercalate "," (xs.map quoteAll))
          | .str s => some (quoteDefault kv.1 ++ "=" ++ quoteAll s)
          | .int n => some (quoteDefault kv.1 ++ "=" ++ quoteAll (toString n)))
        if parts.isEmpty then c.base_url ++ path
        else c.base_url ++ path ++ "?" ++ String.intercalate "&" parts)) ∧
    (StoresResource.searchUrl c { keyword := some "fitness", has_ads := some true } =
      c.base_url ++ "/stores" ++ "?" ++ "keyword=fitness&has_ads=true") := by
  refine ⟨?_, ?_, ?_⟩
  · rw [build_url_parts, build_url_parts, filterMap_serializeParam_filter_null]
  · rw [build_url_parts]
    rfl
  · rfl

/-- **C1 witness**: the statement instantiated at a concrete client, path
and params list, every hypothesis-free conjunct evaluated there. -/
theorem build_url_serialization_witness :
    HttpClient.build_url ⟨"k", "https://api.usecart.com/v1", none⟩ "/stores"
        (some [("keyword", ParamValue.str "fitness"), ("page", ParamValue.null),
          ("has_ads", ParamValue.bool true)]) =
      HttpClient.build_url ⟨"k", "https://api.usecart.com/v1", none⟩ "/stores"
        (some ([("keyword", ParamValue.str "fitness"), ("page", ParamValue.null),
          ("has_ads", ParamValue.bool true)].filter (fun kv => !kv.2.isNull))) ∧
    StoresResource.searchUrl ⟨"k", "https://api.usecart.com/v1", none⟩
        { keyword := some "fitness", has_ads := some true } =
      "https://api.usecart.com/v1" ++ "/stores" ++ "?" ++ "keyword=fitness&has_ads=true" :=
  ⟨(build_url_serialization ⟨"k", "https://api.usecart.com/v1", none⟩ "/stores"
      [("keyword", ParamValue.str "fitness"), ("page", ParamValue.null),
        ("has_ads", ParamValue.bool true)]).1,
    (build_url_serialization ⟨"k", "https://api.usecart.com/v1", none⟩ "/stores" []).2.2⟩

/-- **C9**: request construction is a pure function of the method's inputs
and the client's base URL: two transports agreeing on `base_url` build the
same path + query string for every resource method call, whatever their API
keys or cached rate-limit snapshots (the only other per-client state). -/
theorem request_construction_pure (c1 c2 : HttpClient) (h : c1.base_url = c2.base_url) :
    (∀ path params, HttpClient.build_url c1 path params = HttpClient.build_url c2 path params) ∧
    (∀ a, StoresResource.searchUrl c1 a = StoresResource.searchUrl c2 a) ∧
    (∀ domain, StoresResource.getUrl c1 domain = StoresResource.getUrl c2 domain) ∧
    (∀ domains, StoresResource.compareUrl c1 domains = StoresResource.compareUrl c2 domains) ∧
    (∀ keyword, NichesResource.getUrl c1 keyword = NichesResource.getUrl c2 keyword) := by
  have hb : ∀ path params, HttpClient.build_url c1 path params = HttpClient.build_url c2 path params := by
    intro path params
    unfold HttpClient.build_url
    rw [h]
  exact ⟨hb, fun a => hb _ _, fun d => hb _ _, fun ds => hb _ _, fun k => hb _ _⟩

/-- **C9 witness**: two clients with different API keys and different cached
rate-limit snapshots but one base URL build identical URLs. -/
theorem request_construction_pure_witness :
    StoresResource.searchUrl ⟨"key_one", "https://api.usecart.com/v1", none⟩
        { keyword := some "fitness" } =
      StoresResource.searchUrl ⟨"key_two", "https://api.usecart.com/v1", some ⟨3, 100⟩⟩
        { keyword := some "fitness" } :=
  (request_construction_pure ⟨"key_one", "https://api.usecart.com/v1", none⟩
    ⟨"key_two", "https://api.usecart.com/v1", some ⟨3, 100⟩⟩ rfl).2.1
    { keyword := some "fitness" }

/-! ## Rate-limit header caching -/

/-- The client state `get` leaves behind is governed entirely by
`_parse_rate_limit_headers` (on success and on `HTTPError` alike). -/
theorem get_state (c : HttpClient) (path : String)
    (params : Option (List (String × ParamValue))) (resp : HttpResult) :
    (c.get path params resp).2 =
      (match parse_rate_limit_headers resp.headers c.rate_limit with
       | .ok cache => { c with rate_limit := cache }
       | .error _ => c) := by
  cases resp with
  | success hdrs body =>
    unfold HttpClient.get
    cases hp : parse_rate_limit_headers hdrs c.rate_limit with
    | ok cache => cases body <;> simp [HttpResult.headers, hp]
    | error e => simp [HttpResult.headers, hp]
  | httpError status hdrs body =>
    unfold HttpClient.get
    cases hp : parse_rate_limit_headers hdrs c.rate_limit with
    | ok cache =>
      cases hh : HttpClient.handle_error_response { c with rate_limit := cache } status body hdrs <;>
        simp [HttpResult.headers, hp, hh]
    | error e => simp [HttpResult.headers, hp]

/-- **C2**: on every response (success or error), the cached `RateLimitInfo`
is overwritten exactly when both `X-RateLimit-Remaining` and
`X-RateLimit-Limit` are present and parse as integers, taking the parsed
values; if one of the two headers is missing, or both are present but either
fails to parse, the previously cached value (possibly absent) is kept. -/
theorem rate_limit_cache_update (c : HttpClient) (path : String)
    (params : Option (List (String × ParamValue))) (resp : HttpResult) :
    (∀ r l ri li,
        resp.headers "X-RateLimit-Remaining" = some r →
        resp.headers "X-RateLimit-Limit" = some l →
        parsePyInt r = some ri → parsePyInt l = some li →
        ((c.get path params resp).2).rate_limit = some ⟨ri, li⟩) ∧
    ((resp.headers "X-RateLimit-Remaining" = none ∨ resp.headers "X-RateLimit-Limit" = none) →
        ((c.get path params resp).2).rate_limit = c.rate_limit) ∧
    (∀ r l,
        resp.headers "X-RateLimit-Remaining" = some r →
        resp.headers "X-RateLimit-Limit" = some l →
        (parsePyInt r = none ∨ parsePyInt l = none) →
        ((c.get path params resp).2).rate_limit = c.rate_limit) := by
  refine ⟨?_, ?_, ?_⟩
  · intro r l ri li h1 h2 h3 h4
    rw [get_state]
    simp [parse_rate_limit_headers, h1, h2, h3, h4]
  · intro h
    rw [get_state]
    rcases h with h | h
    · simp [parse_rate_limit_headers, h]
    · cases hx : resp.headers "X-RateLimit-Remaining" <;>
        simp [parse_rate_limit_headers, hx, h]
  · intro r l h1 h2 h3
    rw [get_state]
    rcases h3 with h3 | h3
    · simp [parse_rate_limit_headers, h1, h2, h3]
    · cases hy : parsePyInt r <;> simp [parse_rate_limit_headers, h1, h2, h3, hy]

/-- **C2 witness**: a success response carrying both headers overwrites the
cache with the parsed integers; an error response carrying only
`X-RateLimit-Limit` leaves the previous snapshot in place. -/
theorem rate_limit_cache_update_witness :
    ((HttpClient.get ⟨"k", "https://api.usecart.com/v1", some ⟨9, 50⟩⟩ "/stores" none
        (.success (fun n => if n = "X-RateLimit-Remaining" then some "41"
          else if n = "X-RateLimit-Limit" then some "100" else none)
          (some (.obj [])))).2).rate_limit = some ⟨41, 100⟩ ∧
    ((HttpClient.get ⟨"k", "https://api.usecart.com/v1", some ⟨9, 50⟩⟩ "/stores" none
        (.httpError 500 (fun n => if n = "X-RateLimit-Limit" then some "100" else none)
          none)).2).rate_limit = some ⟨9, 50⟩ :=
  ⟨(rate_limit_cache_update ⟨"k", "https://api.usecart.com/v1", some ⟨9, 50⟩⟩ "/stores" none
      (.success (fun n => if n = "X-RateLimit-Remaining" then some "41"
        else if n = "X-RateLimit-Limit" then some "100" else none) (some (.obj [])))).1
      "41" "100" 41 100 rfl rfl rfl rfl,
    (rate_limit_cache_update ⟨"k", "https://api.usecart.com/v1", some ⟨9, 50⟩⟩ "/stores" none
      (.httpError 500 (fun n => if n = "X-RateLimit-Limit" then some "100" else none)
        none)).2.1 (Or.inl rfl)⟩

/-! ## Error mapping -/

/-- **C4**: every 401 response raises the auth-error variant: its `status`
attribute is 401 and its `code` attribute is `"auth_error"` regardless of the
code in the body, while `message` and `request_id` are resolved from the
error body; in particular the body
`{"error":{"code":"invalid_key","message":"bad key","request_id":"req_1"}}`
yields message `"bad key"`, request id `"req_1"`, and code `"auth_error"`. -/
theorem auth_error_on_401 :
    (∀ (c : HttpClient) (body : Option Json) (headers : Headers),
        c.handle_error_response 401 body headers =
          .ok (.auth (resolveErrorFields 401 body).2.1 (resolveErrorFields 401 body).2.2)) ∧
    (∀ m r, (CartError.auth m r).status = 401 ∧ (CartError.auth m r).code = .str "auth_error") ∧
    (∀ (c : HttpClient) (headers : Headers),
        c.handle_error_response 401
          (some (.obj [("error", .obj [("code", .str "invalid_key"),
            ("message", .str "bad key"), ("request_id", .str "req_1")])])) headers =
          .ok (.auth (.str "bad key") (.str "req_1")) ∧
        (CartError.auth (.str "bad key") (.str "req_1")).code = .str "auth_error") := by
  exact ⟨fun c body headers => rfl, fun m r => ⟨rfl, rfl⟩, fun c headers => ⟨rfl, rfl⟩⟩

/-- **C4 witness**: the 401 scenario at a concrete client and headers. -/
theorem auth_error_on_401_witness :
    HttpClient.handle_error_response ⟨"k", "https://api.usecart.com/v1", none⟩ 401
        (some (.obj [("error", .obj [("code", .str "invalid_key"),
          ("message", .str "bad key"), ("request_id", .str "req_1")])])) (fun _ => none) =
      .ok (.auth (.str "bad key") (.str "req_1")) :=
  (auth_error_on_401.2.2 ⟨"k", "https://api.usecart.com/v1", none⟩ (fun _ => none)).1

/-- **C5**: every response whose status is neither 401 nor 429 raises the
base error with the response's own status and the code/message/request_id
resolved from the body's `error` object; an unparseable body (`none`), a body
without an `error` key, or a non-object body resolves to the fallbacks
`code="unknown_error"`, `message="Cart API error: <status>"`, absent
request id; and when the `error` object carries all three keys they are read
verbatim. -/
theorem base_error_and_fallback :
    (∀ (c : HttpClient) (status : Nat) (body : Option Json) (headers : Headers),
        status ≠ 401 → status ≠ 429 →
        c.handle_error_response status body headers =
          .ok (.api (resolveErrorFields status body).2.1 status
            (resolveErrorFields status body).1 (resolveErrorFields status body).2.2)) ∧
    (∀ status : Nat, resolveErrorFields status none =
        (.str "unknown_error", .str ("Cart API error: " ++ toString status), .null)) ∧
    (∀ (status : Nat) (fs : List (String × Json)), fs.lookup "error" = none →
        resolveErrorFields status (some (.obj fs)) =
          (.str "unknown_error", .str ("Cart API error: " ++ toString status), .null)) ∧
    (∀ (status : Nat) (s : String), resolveErrorFields status (some (.str s)) =
        (.str "unknown_error", .str ("Cart API error: " ++ toString status), .null)) ∧
    (∀ (status : Nat) (fs efs : List (String × Json)) (cj mj rj : Json),
        fs.lookup "error" = some (.obj efs) →
        efs.lookup "code" = some cj → efs.lookup "message" = some mj →
        efs.lookup "request_id" = some rj →
        resolveErrorFields status (some (.obj fs)) = (cj, mj, rj)) := by
  refine ⟨?_, fun status => rfl, ?_, fun status s => rfl, ?_⟩
  · intro c status body headers h401 h429
    unfold HttpClient.handle_error_response
    simp [h401, h429]
  · intro status fs h
    unfold resolveErrorFields
    simp [jget, h, Json.truthy]
  · intro status fs efs cj mj rj he hc hm hr
    have hefs : efs ≠ [] := by
      intro hnil
      rw [hnil] at hc
      cases hc
    unfold resolveErrorFields
    simp [jget, he, hc, hm, hr, Json.truthy, hefs]

/-- **C5 witness**: a 500 with an unparseable body falls back to the default
code and message; a 404 with a full `error` object is read verbatim. -/
theorem base_error_and_fallback_witness :
    HttpClient.handle_error_response ⟨"k", "https://api.usecart.com/v1", none⟩ 500 none
        (fun _ => none) =
      .ok (.api (.str "Cart API error: 500") 500 (.str "unknown_error") .null) ∧
    resolveErrorFields 404
        (some (.obj [("error", .obj [("code", .str "not_found"),
          ("message", .str "no such store"), ("request_id", .str "req_9")])])) =
      (.str "not_found", .str "no such store", .str "req_9") :=
  ⟨(base_error_and_fallback.1 ⟨"k", "https://api.usecart.com/v1", none⟩ 500 none
      (fun _ => none) (by decide) (by decide)),
    base_error_and_fallback.2.2.2.2 404
      [("error", .obj [("code", .str "not_found"), ("message", .str "no such store"),
        ("request_id", .str "req_9")])]
      [("code", .str "not_found"), ("message", .str "no such store"),
        ("request_id", .str "req_9")]
      (.str "not_found") (.str "no such store") (.str "req_9") rfl rfl rfl rfl⟩

/-- **C3 counterexample**: the claim wants `retry_after` to be absent whenever
`Retry-After` is unparseable, but `_handle_error_response` computes
`int(retry_after_header) if retry_after_header else None`: a present,
non-empty, unparseable header (here `"soon"`) makes `int()` raise
`ValueError`, so no rate-limit error is raised at all. -/
theorem retry_after_unparseable_counterexample :
    (HttpClient.get ⟨"k", "https://api.usecart.com/v1", none⟩ "/stores" none
        (.httpError 429 (fun n => if n = "Retry-After" then some "soon" else none) none)).1
      = .error .intParse ∧
    ¬ ∃ ce : CartError,
        (HttpClient.get ⟨"k", "https://api.usecart.com/v1", none⟩ "/stores" none
          (.httpError 429 (fun n => if n = "Retry-After" then some "soon" else none) none)).1
        = .error (.cart ce) := by
  refine ⟨rfl, ?_⟩
  rintro ⟨ce, h⟩
  rw [show (HttpClient.get ⟨"k", "https://api.usecart.com/v1", none⟩ "/stores" none
      (.httpError 429 (fun n => if n = "Retry-After" then some "soon" else none) none)).1
    = Except.error PyError.intParse from rfl] at h
  simp at h

/-- **C3 (amended)**: every 429 response raises the rate-limit variant with
status 429 and code `"rate_limit_exceeded"`, message and request_id resolved
from the error body, `retry_after` parsed as integer seconds from
`Retry-After` and absent whenever that header is missing **or empty** (a
present, non-empty, unparseable header instead escapes as `int()`'s untyped
`ValueError`), and `rate_limit`/`rate_limit_remaining` copied from the cached
`RateLimitInfo` when present and both absent otherwise; a 429 carrying
`X-RateLimit-Limit: 100`, `X-RateLimit-Remaining: 0`, `Retry-After: 30`
raises the variant with retry_after=30, rate_limit=100,
rate_limit_remaining=0. -/
theorem rate_limit_error_on_429 :
    (∀ (c : HttpClient) (body : Option Json) (headers : Headers),
        headers "Retry-After" = none →
        c.handle_error_response 429 body headers =
          .ok (.rateLimit (resolveErrorFields 429 body).2.1 (resolveErrorFields 429 body).2.2
            none (c.rate_limit.map RateLimitInfo.limit)
            (c.rate_limit.map RateLimitInfo.remaining))) ∧
    (∀ (c : HttpClient) (body : Option Json) (headers : Headers),
        headers "Retry-After" = some "" →
        c.handle_error_response 429 body headers =
          .ok (.rateLimit (resolveErrorFields 429 body).2.1 (resolveErrorFields 429 body).2.2
            none (c.rate_limit.map RateLimitInfo.limit)
            (c.rate_limit.map RateLimitInfo.remaining))) ∧
    (∀ (c : HttpClient) (body : Option Json) (headers : Headers) (h : String) (n : Int),
        headers "Retry-After" = some h → parsePyInt h = some n →
        c.handle_error_response 429 body headers =
          .ok (.rateLimit (resolveErrorFields 429 body).2.1 (resolveErrorFields 429 body).2.2
            (some n) (c.rate_limit.map RateLimitInfo.limit)
            (c.rate_limit.map RateLimitInfo.remaining))) ∧
    (∀ (c : HttpClient) (body : Option Json) (headers : Headers) (h : String),
        headers "Retry-After" = some h → h ≠ "" → parsePyInt h = none →
        c.handle_error_response 429 body headers = .error .intParse) ∧
    (∀ m r ra rl rr, (CartError.rateLimit m r ra rl rr).status = 429 ∧
        (CartError.rateLimit m r ra rl rr).code = .str "rate_limit_exceeded") ∧
    (∀ c : HttpClient,
        HttpClient.get c "/stores" none (.httpError 429
          (fun n => if n = "X-RateLimit-Limit" then some "100"
            else if n = "X-RateLimit-Remaining" then some "0"
            else if n = "Retry-After" then some "30" else none) none) =
        (.error (.cart (.rateLimit (.str "Cart API error: 429") .null
            (some 30) (some 100) (some 0))),
          { c with rate_limit := some ⟨0, 100⟩ })) := by
  refine ⟨?_, ?_, ?_, ?_, fun m r ra rl rr => ⟨rfl, rfl⟩, fun c => rfl⟩
  · intro c body headers hra
    simp [HttpClient.handle_error_response, hra]
  · intro c body headers hra
    simp [HttpClient.handle_error_response, hra]
  · intro c body headers h n hra hp
    have hne : h ≠ "" := by
      intro he
      rw [he] at hp
      cases hp
    simp [HttpClient.handle_error_response, hra, hne, hp]
  · intro c body headers h hra hne hp
    simp [HttpClient.handle_error_response, hra, hne, hp]

/-- **C3 witness**: the amended statement applied at the scenario's concrete
429 response, plus the missing-header and parseable-header branches at
concrete clients with and without a cached snapshot. -/
theorem rate_limit_error_on_429_witness :
    HttpClient.handle_error_response ⟨"k", "https://api.usecart.com/v1", none⟩ 429 none
        (fun _ => none) =
      .ok (.rateLimit (.str "Cart API error: 429") .null none none none) ∧
    HttpClient.handle_error_response ⟨"k", "https://api.usecart.com/v1", some ⟨0, 100⟩⟩ 429 none
        (fun n => if n = "Retry-After" then some "30" else none) =
      .ok (.rateLimit (.str "Cart API error: 429") .null (some 30) (some 100) (some 0)) ∧
    HttpClient.handle_error_response ⟨"k", "https://api.usecart.com/v1", none⟩ 429 none
        (fun n => if n = "Retry-After" then some "soon" else none) = .error .intParse :=
  ⟨rate_limit_error_on_429.1 ⟨"k", "https://api.usecart.com/v1", none⟩ none (fun _ => none) rfl,
    rate_limit_error_on_429.2.2.1 ⟨"k", "https://api.usecart.com/v1", some ⟨0, 100⟩⟩ none
      (fun n => if n = "Retry-After" then some "30" else none) "30" 30 rfl rfl,
    rate_limit_error_on_429.2.2.2.1 ⟨"k", "https://api.usecart.com/v1", none⟩ none
      (fun n => if n = "Retry-After" then some "soon" else none) "soon" rfl
      (by decide) rfl⟩

/-! ## Construction-time configuration error -/

/-- The only exception `_parse_rate_limit_headers` can raise is `int()`'s
`ValueError`. -/
theorem parse_rlh_error_eq {headers : Headers} {cache : Option RateLimitInfo}
    {e : PyError} (h : parse_rate_limit_headers headers cache = .error e) :
    e = .intParse := by
  unfold parse_rate_limit_headers at h
  dsimp only at h
  repeat' split at h
  all_goals cases h <;> rfl

/-- The only exception `_handle_error_response` can raise (beyond the Cart
error it deliberately raises) is `int()`'s `ValueError` on `Retry-After`. -/
theorem handle_error_response_error_eq {c : HttpClient} {status : Nat}
    {body : Option Json} {headers : Headers} {e : PyError}
    (h : c.handle_error_response status body headers = .error e) : e = .intParse := by
  unfold HttpClient.handle_error_response at h
  dsimp only at h
  repeat' split at h
  all_goals cases h <;> rfl

/-- The only exception `_parse_response` can raise is the `AttributeError`
from `.get` on a non-dict. -/
theorem parse_response_error_eq {b : Json} {e : PyError}
    (h : parse_response b = .error e) : e = .attrError := by
  unfold parse_response at h
  dsimp only at h
  repeat' split at h
  all_goals cases h <;> rfl

/-- **C7**: constructing the client with an empty API key fails with the
configuration error immediately — construction takes no response, so no
network call is involved — a non-empty key constructs the transport; and no
network call (`HttpClient.get`, on any outcome) ever raises the
configuration error. -/
theorem config_error_only_at_construction :
    (∀ base_url, Cart.mk "" base_url = .error .config) ∧
    (∀ api_key base_url, api_key ≠ "" →
        Cart.mk api_key base_url = .ok ⟨api_key, rstripSlash base_url, none⟩) ∧
    (∀ (c : HttpClient) (path : String) (params : Option (List (String × ParamValue)))
        (resp : HttpResult) (e : PyError),
        (HttpClient.get c path params resp).1 = .error e → e ≠ .config) := by
  refine ⟨fun b => rfl, ?_, ?_⟩
  · intro k b hk
    simp [Cart.mk, hk]
  · intro c path params resp e h hconfig
    subst hconfig
    cases resp with
    | success hdrs body =>
      unfold HttpClient.get at h
      dsimp only at h
      cases hp : parse_rate_limit_headers hdrs c.rate_limit with
      | error e2 =>
        rw [hp] at h
        simp at h
        rw [parse_rlh_error_eq hp] at h
        cases h
      | ok cache =>
        rw [hp] at h
        cases body with
        | none => simp at h
        | some b =>
          simp at h
          have := parse_response_error_eq h
          cases this
    | httpError status hdrs body =>
      unfold HttpClient.get at h
      dsimp only at h
      cases hp : parse_rate_limit_headers hdrs c.rate_limit with
      | error e2 =>
        rw [hp] at h
        simp at h
        rw [parse_rlh_error_eq hp] at h
        cases h
      | ok cache =>
        rw [hp] at h
        dsimp only at h
        cases hh : HttpClient.handle_error_response { c with rate_limit := cache } status body hdrs with
        | ok ce =>
          rw [hh] at h
          simp at h
        | error e2 =>
          rw [hh] at h
          simp at h
          rw [handle_error_response_error_eq hh] at h
          cases h

/-- **C7 witness**: empty key → configuration error; key `cart_sk_x` →
constructed client; a concrete failing network call (undecodable body)
raises the JSON decode error, not the configuration error. -/
theorem config_error_only_at_construction_witness :
    Cart.mk "" DEFAULT_BASE_URL = .error .config ∧
    Cart.mk "cart_sk_x" DEFAULT_BASE_URL =
      .ok ⟨"cart_sk_x", rstripSlash DEFAULT_BASE_URL, none⟩ ∧
    PyError.jsonDecode ≠ PyError.config :=
  ⟨config_error_only_at_construction.1 DEFAULT_BASE_URL,
    config_error_only_at_construction.2.1 "cart_sk_x" DEFAULT_BASE_URL (by decide),
    config_error_only_at_construction.2.2 ⟨"cart_sk_x", "https://api.usecart.com/v1", none⟩
      "/stores" none (.success (fun _ => none) none) .jsonDecode rfl⟩

/-! ## Success-body parsing -/

/-- **C8**: parsing a successful JSON body into an `ApiResponse` is
deterministic, and lossless for the `meta`/`usage` subset: every meta field
(`request_id`, `timestamp`, `page`, `total_pages`, `total_results`) and usage
field (`requests_today`, `limit`) present in the body reappears verbatim in
the record, a missing field yields its documented default (empty string for
the string fields, zero for the integer fields), and bodies missing the
whole `meta`/`usage` objects parse successfully into all-default
sub-records rather than failing. -/
theorem parse_response_meta_usage :
    (∀ b1 b2 : Json, b1 = b2 → parse_response b1 = parse_response b2) ∧
    (∀ (fs ms : List (String × Json)) (r : ApiResponse),
        fs.lookup "meta" = some (.obj ms) → parse_response (.obj fs) = .ok r →
        (∀ v, ms.lookup "request_id" = some v → r.meta.request_id = v) ∧
        (∀ v, ms.lookup "timestamp" = some v → r.meta.timestamp = v) ∧
        (∀ v, ms.lookup "page" = some v → r.meta.page = v) ∧
        (∀ v, ms.lookup "total_pages" = some v → r.meta.total_pages = v) ∧
        (∀ v, ms.lookup "total_results" = some v → r.meta.total_results = v) ∧
        (ms.lookup "request_id" = none → r.meta.request_id = .str "") ∧
        (ms.lookup "timestamp" = none → r.meta.timestamp = .str "") ∧
        (ms.lookup "page" = none → r.meta.page = .num 0) ∧
        (ms.lookup "total_pages" = none → r.meta.total_pages = .num 0) ∧
        (ms.lookup "total_results" = none → r.meta.total_results = .num 0)) ∧
    (∀ (fs us : List (String × Json)) (r : ApiResponse),
        fs.lookup "usage" = some (.obj us) → parse_response (.obj fs) = .ok r →
        (∀ v, us.lookup "requests_today" = some v → r.usage.requests_today = v) ∧
        (∀ v, us.lookup "limit" = some v → r.usage.limit = v) ∧
        (us.lookup "requests_today" = none → r.usage.requests_today = .num 0) ∧
        (us.lookup "limit" = none → r.usage.limit = .num 0)) ∧
    (∀ fs : List (String × Json),
        fs.lookup "meta" = none → fs.lookup "usage" = none →
        parse_response (.obj fs) =
          .ok ⟨jget fs "data" .null, ⟨.str "", .str "", .num 0, .num 0, .num 0⟩,
            ⟨.num 0, .num 0⟩⟩) := by
  refine ⟨fun b1 b2 h => by rw [h], ?_, ?_, ?_⟩
  · intro fs ms r hm hok
    unfold parse_response at hok
    dsimp only at hok
    rw [show jget fs "meta" (Json.obj []) = Json.obj ms by simp [jget, hm]] at hok
    rcases hju : jget fs "usage" (Json.obj []) with _ | b | n | s | xs | us <;>
        rw [hju] at hok <;>
      first
        | exact Except.noConfusion hok
        | (injection hok with hok
           subst hok
           refine ⟨?_, ?_, ?_, ?_, ?_, ?_, ?_, ?_, ?_, ?_⟩ <;> intros <;> simp [jget, *])
  · intro fs us r hu hok
    unfold parse_response at hok
    dsimp only at hok
    rcases hjm : jget fs "meta" (Json.obj []) with _ | b | n | s | xs | ms <;>
        rw [hjm] at hok <;>
      first
        | exact Except.noConfusion hok
        | (rw [show jget fs "usage" (Json.obj []) = Json.obj us by simp [jget, hu]] at hok
           injection hok with hok
           subst hok
           refine ⟨?_, ?_, ?_, ?_⟩ <;> intros <;> simp [jget, *])
  · intro fs hm hu
    unfold parse_response
    dsimp only
    rw [show jget fs "meta" (Json.obj []) = Json.obj [] by simp [jget, hm],
      show jget fs "usage" (Json.obj []) = Json.obj [] by simp [jget, hu]]
    rfl

/-- **C8 witness**: a body with partial `meta` and `usage` objects — present
fields reproduced verbatim, absent fields defaulted — and a body with no
`meta`/`usage` at all parsing into the all-default envelope. -/
theorem parse_response_meta_usage_witness :
    parse_response (.obj [("data", .arr []),
        ("meta", .obj [("request_id", .str "req_7"), ("page", .num 2)]),
        ("usage", .obj [("limit", .num 1000)])]) =
      .ok ⟨.arr [], ⟨.str "req_7", .str "", .num 2, .num 0, .num 0⟩, ⟨.num 0, .num 1000⟩⟩ ∧
    (⟨.arr [], ⟨.str "req_7", .str "", .num 2, .num 0, .num 0⟩,
        ⟨.num 0, .num 1000⟩⟩ : ApiResponse).meta.request_id = .str "req_7" ∧
    (⟨.arr [], ⟨.str "req_7", .str "", .num 2, .num 0, .num 0⟩,
        ⟨.num 0, .num 1000⟩⟩ : ApiResponse).meta.timestamp = .str "" ∧
    parse_response (.obj [("data", .null)]) =
      .ok ⟨jget [("data", Json.null)] "data" .null,
        ⟨.str "", .str "", .num 0, .num 0, .num 0⟩, ⟨.num 0, .num 0⟩⟩ :=
  ⟨rfl,
    ((parse_response_meta_usage.2.1
        [("data", .arr []),
          ("meta", .obj [("request_id", .str "req_7"), ("page", .num 2)]),
          ("usage", .obj [("limit", .num 1000)])]
        [("request_id", .str "req_7"), ("page", .num 2)]
        ⟨.arr [], ⟨.str "req_7", .str "", .num 2, .num 0, .num 0⟩, ⟨.num 0, .num 1000⟩⟩
        rfl rfl).1 (.str "req_7") rfl),
    ((parse_response_meta_usage.2.1
        [("data", .arr []),
          ("meta", .obj [("request_id", .str "req_7"), ("page", .num 2)]),
          ("usage", .obj [("limit", .num 1000)])]
        [("request_id", .str "req_7"), ("page", .num 2)]
        ⟨.arr [], ⟨.str "req_7", .str "", .num 2, .num 0, .num 0⟩, ⟨.num 0, .num 1000⟩⟩
        rfl rfl).2.2.2.2.2.2.1 rfl),
    parse_response_meta_usage.2.2.2 [("data", .null)] rfl rfl⟩
